import Mathlib

/-!
Verification model of the shopify-whatsapp-ai-bot retrieval-augmented
response pipeline.  The development shallowly embeds three parts of the
code base:

* the Shopify ingestion processor (`ShopifyDataProcessor` methods),
  with the database, the Shopify client pages, the embedder and the
  JS runtime primitives (number parsing/formatting) supplied as
  explicit environment parameters;
* the retrieval layer (`retrieveRelevantChunks`,
  `retrieveRelevantChunksFromFiles`, `retrieveRelevantShopifyChunks`)
  over an RPC oracle;
* the auto-response orchestrator (`generateAutoResponse`) together
  with its bounded retry wrapper (`retrySupabaseQuery`), returning a
  structured result plus an explicit trace of database writes.

Text handled character-wise (HTML stripping, trimming, chunking) is
modelled as `List Char`; the orchestrator and retrieval layer use
plain `String`.
-/

/-! ## Character-level string model for the ingestion processor -/

abbrev Str := List Char

/-- Whitespace recognised by the model of `String.prototype.trim`. -/
def isWsChar (c : Char) : Bool :=
  c = ' ' || c = '\n' || c = '\t' || c = '\r'

/-- Model of JavaScript `s.trim()`: drop leading and trailing whitespace. -/
def trimStr (s : Str) : Str :=
  ((s.dropWhile isWsChar).reverse.dropWhile isWsChar).reverse

/-- Scanner state step for the model of `s.replace(/<[^>]*>/g, '')`:
`pending = some buf` means we are inside a potential tag whose consumed
characters (reversed) are `buf`; an unterminated tag is emitted verbatim,
matching the regex (which only removes `<...>` groups closed by `>`). -/
def stripHtmlGo : Option Str → Str → Str
  | some buf, [] => buf.reverse
  | some buf, c :: r => if c = '>' then stripHtmlGo none r else stripHtmlGo (some (c :: buf)) r
  | none, [] => []
  | none, c :: r => if c = '<' then stripHtmlGo (some ['<']) r else c :: stripHtmlGo none r

/-- Model of the source's HTML stripping `text.replace(/<[^>]*>/g, '')`. -/
def stripHtml (s : Str) : Str := stripHtmlGo none s

/-- Cutting loop of the chunker model; `fuel` bounds the recursion depth
and is initialised to the text length, which one segment per step never
exhausts. -/
def chunkTextGo : Nat → Str → Nat → List Str
  | _, _, 0 => []
  | _, [], _ => []
  | 0, _ :: _, _ + 1 => []
  | fuel + 1, c :: rest, n + 1 => (c :: rest).take (n + 1) :: chunkTextGo fuel (rest.drop n) (n + 1)

/-- Modelled from the spec: the chunker module `./chunk` is not among the
sources; per the spec it splits formatted text "into bounded-length chunks
(target ~1500 characters per chunk)".  The model cuts the text into
consecutive segments of at most `size` characters. -/
def chunkText (s : Str) (size : Nat) : List Str := chunkTextGo s.length s size

/-- Digits of a natural number, for the model of JS number-to-string
interpolation of integer counts. -/
def natStr (n : Nat) : Str := (toString n).data

/-! ## Ingestion processor data model (`part_000`) -/

structure ShopifyVariant where
  price_amount : Str
  price_currencyCode : Str
  availableForSale : Bool
  sku : Str
deriving DecidableEq

structure ShopifyProduct where
  id : Str
  title : Str
  handle : Str
  description : Str
  variants : List ShopifyVariant
  images : List Str
deriving DecidableEq

structure ShopifyPage where
  id : Str
  title : Str
  handle : Str
  body : Str
deriving DecidableEq

structure ShopifyCollection where
  id : Str
  title : Str
  handle : Str
  description : Str
deriving DecidableEq

inductive CType where
  | product
  | page
  | collection
deriving DecidableEq

inductive ChunkMeta where
  | product (handle : Str) (variants_count images_count available_variants : Nat)
  | page (handle : Str)
  | collection (handle : Str)
deriving DecidableEq

/-- The `ShopifyChunkData` interface of the source. -/
structure ShopifyChunkData where
  content_type : CType
  content_id : Str
  title : Str
  text : Str
  metadata : ChunkMeta
deriving DecidableEq

/-- A row of the `shopify_chunks` table as inserted by `storeChunk`. -/
structure StoredRow where
  store_id : Str
  content_type : CType
  content_id : Str
  title : Str
  chunk_text : Str
  embedding : List Int
  metadata : ChunkMeta
deriving DecidableEq

/-- A Supabase insert error (`error.code`, `error.message`). -/
structure InsertError where
  code : Str
  message : Str
deriving DecidableEq

/-- Environment of the ingestion processor: the tenant id, the external
store behaviour (delete outcome, insert outcome), the external embedder,
the JS number primitives used by `productToText` (`parseFloat`,
`toFixed(2)`), and the pages served by the Shopify client's paginated
fetches. -/
structure ProcEnv where
  storeId : Str
  deleteError : Option Str
  embedText : Str → Option (List Int)
  insertError : StoredRow → List StoredRow → Option InsertError
  parseNum : Str → Option ℚ
  toFixed2 : ℚ → Str
  productPages : List (List ShopifyProduct)
  pagePages : List (List ShopifyPage)
  collectionPages : List (List ShopifyCollection)

/-- Outcome of a processor step: the database contents afterwards and the
message of the exception that aborted it, if any. -/
abbrev ProcResult := List StoredRow × Option Str

/-- `productToText`: render a product to the text that is chunked. -/
def productToText (env : ProcEnv) (p : ShopifyProduct) : Str :=
  let t1 : Str := "Product: ".data ++ p.title ++ "\n".data
  let t2 : Str :=
    if p.description ≠ [] then
      t1 ++ "Description: ".data ++ trimStr (stripHtml p.description) ++ "\n".data
    else t1
  let prices : List ℚ := p.variants.filterMap (fun v => env.parseNum v.price_amount)
  let t3 : Str :=
    match prices, p.variants with
    | q :: qs, v0 :: _ =>
      let minPrice := qs.foldl min q
      let maxPrice := qs.foldl max q
      let cc := v0.price_currencyCode
      if minPrice = maxPrice then
        t2 ++ "Price: ".data ++ cc ++ " ".data ++ env.toFixed2 minPrice ++ "\n".data
      else
        t2 ++ "Price Range: ".data ++ cc ++ " ".data ++ env.toFixed2 minPrice
           ++ " - ".data ++ cc ++ " ".data ++ env.toFixed2 maxPrice ++ "\n".data
    | _, _ => t2
  let availableCount := (p.variants.filter (·.availableForSale)).length
  let t4 : Str := t3 ++ "Availability: ".data ++ natStr availableCount ++ "/".data
      ++ natStr p.variants.length ++ " variants available\n".data
  let skus := (p.variants.map (·.sku)).filter (fun s => !s.isEmpty)
  let t5 : Str :=
    if skus ≠ [] then t4 ++ "SKUs: ".data ++ List.intercalate ", ".data skus ++ "\n".data
    else t4
  let t6 : Str :=
    if p.images.length > 0 then
      t5 ++ "Images: ".data ++ natStr p.images.length ++ " available\n".data
    else t5
  trimStr t6

/-- `pageToText`: render a page to the text that is chunked. -/
def pageToText (pg : ShopifyPage) : Str :=
  let t1 : Str := "Page: ".data ++ pg.title ++ "\n".data
  let t2 : Str :=
    if pg.body ≠ [] then t1 ++ "Content: ".data ++ trimStr (stripHtml pg.body) ++ "\n".data
    else t1
  trimStr t2

/-- `collectionToText`: render a collection to the text that is chunked. -/
def collectionToText (col : ShopifyCollection) : Str :=
  let t1 : Str := "Collection: ".data ++ col.title ++ "\n".data
  let t2 : Str :=
    if col.description ≠ [] then
      t1 ++ "Description: ".data ++ trimStr (stripHtml col.description) ++ "\n".data
    else t1
  trimStr t2

/-- The row `storeChunk` builds for a chunk, given the embedding vector. -/
def mkStoredRow (env : ProcEnv) (cd : ShopifyChunkData) (emb : List Int) : StoredRow :=
  ⟨env.storeId, cd.content_type, cd.content_id, cd.title, cd.text, emb, cd.metadata⟩

/-- `storeChunk`: embed a chunk and insert it; a `23505` unique-constraint
violation is skipped, any other insert error raises `Failed to store
chunk: ...`, a null embedding raises `Failed to generate embedding ...`. -/
def storeChunk (env : ProcEnv) (db : List StoredRow) (cd : ShopifyChunkData) : ProcResult :=
  match env.embedText cd.text with
  | none => (db, some ("Failed to generate embedding for chunk: ".data ++ cd.title))
  | some emb =>
    let row := mkStoredRow env cd emb
    match env.insertError row db with
    | none => (db ++ [row], none)
    | some e =>
      if e.code = "23505".data then (db, none)
      else (db, some ("Failed to store chunk: ".data ++ e.message))

/-- Sequential processing with exception propagation: run `step` on every
element in order, stopping at the first error (a thrown exception aborts
the enclosing async function). -/
def foldStop (step : List StoredRow → α → ProcResult) (db : List StoredRow) :
    List α → ProcResult
  | [] => (db, none)
  | x :: xs =>
    match step db x with
    | (db', none) => foldStop step db' xs
    | (db', some e) => (db', some e)

/-- The chunk records `processProduct` submits to `storeChunk`:
`chunkText(text, 1500).filter(c => c.trim().length > 0)` with the
product metadata. -/
def productChunkDatas (env : ProcEnv) (p : ShopifyProduct) : List ShopifyChunkData :=
  ((chunkText (productToText env p) 1500).filter (fun c => decide (0 < (trimStr c).length))).map
    (fun ch =>
      ⟨CType.product, p.id, p.title, ch,
        ChunkMeta.product p.handle p.variants.length p.images.length
          (p.variants.filter (·.availableForSale)).length⟩)

/-- The chunk records `processPage` submits to `storeChunk`. -/
def pageChunkDatas (pg : ShopifyPage) : List ShopifyChunkData :=
  ((chunkText (pageToText pg) 1500).filter (fun c => decide (0 < (trimStr c).length))).map
    (fun ch => ⟨CType.page, pg.id, pg.title, ch, ChunkMeta.page pg.handle⟩)

/-- The chunk records `processCollection` submits to `storeChunk`. -/
def collectionChunkDatas (col : ShopifyCollection) : List ShopifyChunkData :=
  ((chunkText (collectionToText col) 1500).filter (fun c => decide (0 < (trimStr c).length))).map
    (fun ch => ⟨CType.collection, col.id, col.title, ch, ChunkMeta.collection col.handle⟩)

/-- `processProduct`: chunk one product and store every chunk in order. -/
def processProduct (env : ProcEnv) (db : List StoredRow) (p : ShopifyProduct) : ProcResult :=
  foldStop (storeChunk env) db (productChunkDatas env p)

/-- `processPage`: chunk one page and store every chunk in order. -/
def processPage (env : ProcEnv) (db : List StoredRow) (pg : ShopifyPage) : ProcResult :=
  foldStop (storeChunk env) db (pageChunkDatas pg)

/-- `processCollection`: chunk one collection and store every chunk. -/
def processCollection (env : ProcEnv) (db : List StoredRow) (col : ShopifyCollection) :
    ProcResult :=
  foldStop (storeChunk env) db (collectionChunkDatas col)

/-- `processProducts`: the pagination loop over product pages, processing
each page's products in order. -/
def processProducts (env : ProcEnv) (db : List StoredRow) : ProcResult :=
  foldStop (fun db page => foldStop (fun db p => processProduct env db p) db page)
    db env.productPages

/-- `processPages`: the pagination loop over informational pages. -/
def processPages (env : ProcEnv) (db : List StoredRow) : ProcResult :=
  foldStop (fun db page => foldStop (fun db pg => processPage env db pg) db page)
    db env.pagePages

/-- `processCollections`: the pagination loop over collections. -/
def processCollections (env : ProcEnv) (db : List StoredRow) : ProcResult :=
  foldStop (fun db page => foldStop (fun db c => processCollection env db c) db page)
    db env.collectionPages

/-- `clearExistingChunks`: delete every chunk of this store; a delete
error raises `Failed to clear existing chunks: ...`. -/
def clearExistingChunks (env : ProcEnv) (db : List StoredRow) : ProcResult :=
  match env.deleteError with
  | some m => (db, some ("Failed to clear existing chunks: ".data ++ m))
  | none => (db.filter (fun r => !(r.store_id = env.storeId : Bool)), none)

/-- `processAllData`: clear the store's chunks, then process products,
pages and collections; any raised error aborts the remaining steps. -/
def processAllData (env : ProcEnv) (db : List StoredRow) : ProcResult :=
  match clearExistingChunks env db with
  | (db1, some e) => (db1, some e)
  | (db1, none) =>
    match processProducts env db1 with
    | (db2, some e) => (db2, some e)
    | (db2, none) =>
      match processPages env db2 with
      | (db3, some e) => (db3, some e)
      | (db3, none) => processCollections env db3

/-- All rows the current source state can produce for this run: for every
record of every fetched page, the rows built from its retained chunks
whose embedding succeeds. -/
def producedRows (env : ProcEnv) : List StoredRow :=
  (env.productPages.flatten.flatMap fun p =>
    (productChunkDatas env p).filterMap fun cd =>
      (env.embedText cd.text).map (mkStoredRow env cd))
  ++ (env.pagePages.flatten.flatMap fun pg =>
    (pageChunkDatas pg).filterMap fun cd =>
      (env.embedText cd.text).map (mkStoredRow env cd))
  ++ (env.collectionPages.flatten.flatMap fun col =>
    (collectionChunkDatas col).filterMap fun cd =>
      (env.embedText cd.text).map (mkStoredRow env cd))

/-! ## JS error values and Supabase query results -/

/-- A thrown JavaScript value: either an `Error` with a message, or any
other value (for which the catch handler reports `Unknown error`). -/
inductive JsErr where
  | jsError (message : String)
  | nonError
deriving DecidableEq

/-- The message the orchestrator's catch handler extracts:
`error instanceof Error ? error.message : "Unknown error"`. -/
def jsMessage : JsErr → String
  | .jsError m => m
  | .nonError => "Unknown error"

/-- A Supabase-style query result `{ data, error }`. -/
structure QRes (α : Type) where
  data : α
  error : Option JsErr
deriving DecidableEq

/-- Observable behaviour of `retrySupabaseQuery`: the returned result,
how many times the query function was invoked, and the argument of each
`setTimeout` delay in order. -/
structure RetryOut (α : Type) where
  result : QRes α
  calls : Nat
  delaysMs : List Nat
deriving DecidableEq

/-- The retry loop of `retrySupabaseQuery`, from iteration `attempt`,
with `fuel` the number of loop iterations left (`maxRetries - attempt +
1`); at `fuel = 0` the loop has exhausted and the trailing extra call of
the query function is issued and returned.  The query function is
modelled as a sequence `f` of results indexed by call number (the first
call is `f 1`); a failed attempt delays `attempt * 1000` ms unless it
was the final loop iteration. -/
def retryGo (f : Nat → QRes α) : Nat → Nat → RetryOut α
  | attempt, 0 => ⟨f attempt, 1, []⟩
  | attempt, fuel + 1 =>
    let r := f attempt
    if r.error = none then ⟨r, 1, []⟩
    else
      let o := retryGo f (attempt + 1) fuel
      ⟨o.result, o.calls + 1,
        if fuel = 0 then o.delaysMs else attempt * 1000 :: o.delaysMs⟩

/-- `retrySupabaseQuery`: attempt the query up to `maxRetries` times with
a linearly increasing delay between failed attempts, and after the loop
exhausts, issue one more call and return its result as-is. -/
def retrySupabaseQuery (f : Nat → QRes α) (maxRetries : Nat := 3) : RetryOut α :=
  retryGo f 1 maxRetries

/-! ## Retrieval layer (`src/lib/retrieval.ts`) -/

/-- A row returned by the `match_documents` RPC. -/
structure DocChunk where
  id : String
  chunk : String
  similarity : Int
deriving DecidableEq

/-- A merged multi-file result entry: a `DocChunk` tagged with the file
it came from. -/
structure DocChunkF where
  id : String
  chunk : String
  similarity : Int
  file_id : String
deriving DecidableEq

/-- The external `match_documents` RPC: query embedding, target file
(`null` for all), match count. -/
abbrev Rpc := List Int → Option String → Nat → QRes (List DocChunk)

/-- `retrieveRelevantChunks`: call the RPC and throw its error if any. -/
def retrieveRelevantChunks (rpc : Rpc) (queryEmbedding : List Int)
    (fileId : Option String) (limit : Nat) : Except JsErr (List DocChunk) :=
  match rpc queryEmbedding fileId limit with
  | ⟨_, some e⟩ => .error e
  | ⟨d, none⟩ => .ok d

/-- Result shape of `retrieveRelevantChunksFromFiles`: the single-source
branches return plain chunks, the multi-source branch returns chunks
tagged with their `file_id`. -/
inductive RetrievalOut where
  | plain (chunks : List DocChunk)
  | tagged (chunks : List DocChunkF)
deriving DecidableEq

/-- Tag one source's chunks with its file id, as the merge loop does. -/
def tagWith (f : String) (c : DocChunk) : DocChunkF :=
  ⟨c.id, c.chunk, c.similarity, f⟩

/-- Descending-similarity comparison used by
`sort((a, b) => b.similarity - a.similarity)`. -/
def simGE (a b : DocChunkF) : Prop := b.similarity ≤ a.similarity

instance : DecidableRel simGE := fun a b => Int.decLe b.similarity a.similarity

instance : IsTotal DocChunkF simGE := ⟨fun a b => le_total b.similarity a.similarity⟩

instance : IsTrans DocChunkF simGE :=
  ⟨fun _ _ _ h1 h2 => le_trans h2 h1⟩

/-- Sort descending by similarity and truncate:
`.sort((a, b) => b.similarity - a.similarity).slice(0, limit)`. -/
def topK (k : Nat) (l : List DocChunkF) : List DocChunkF :=
  (l.insertionSort simGE).take k

/-- The accumulation loop of `retrieveRelevantChunksFromFiles`: fetch
each file's chunks in order, tag them, and append to the accumulator;
a retrieval error propagates. -/
def multiLoop (rpc : Rpc) (queryEmbedding : List Int) (limit : Nat) :
    List String → List DocChunkF → Except JsErr (List DocChunkF)
  | [], acc => .ok acc
  | f :: fs, acc =>
    match retrieveRelevantChunks rpc queryEmbedding (some f) limit with
    | .error e => .error e
    | .ok chunks => multiLoop rpc queryEmbedding limit fs (acc ++ chunks.map (tagWith f))

/-- `retrieveRelevantChunksFromFiles`: empty source list yields `[]`, a
single source delegates to single-source retrieval, and two or more
sources are fetched independently, merged, sorted descending by
similarity and truncated to the limit. -/
def retrieveRelevantChunksFromFiles (rpc : Rpc) (queryEmbedding : List Int)
    (fileIds : List String) (limit : Nat) : Except JsErr RetrievalOut :=
  match fileIds with
  | [] => .ok (.plain [])
  | [f] => (retrieveRelevantChunks rpc queryEmbedding (some f) limit).map .plain
  | fs =>
    (multiLoop rpc queryEmbedding limit fs []).map fun allChunks =>
      .tagged (topK limit allChunks)

/-- The union of the per-source responses, in source order, tagged. -/
def unionTagged (rpc : Rpc) (queryEmbedding : List Int) (limit : Nat)
    (fileIds : List String) : List DocChunkF :=
  fileIds.flatMap fun f => ((rpc queryEmbedding (some f) limit).data).map (tagWith f)

/-- A row of the `shopify_chunks` table as selected by
`retrieveRelevantShopifyChunks`. -/
structure ShopifySelRow where
  id : String
  chunk_text : String
  store_id : String
  content_type : String
  title : String
  metadata : String
deriving DecidableEq

/-- A result entry of `retrieveRelevantShopifyChunks`; similarity is the
constant placeholder `0`. -/
structure SMatch where
  id : String
  chunk : String
  similarity : Int
  store_id : String
  content_type : String
  title : String
  metadata : String
deriving DecidableEq

/-- The external nearest-neighbour select on `shopify_chunks`, ordered by
embedding distance with a limit. -/
abbrev ShopifyNn := List Int → String → Nat → QRes (Option (List ShopifySelRow))

/-- `retrieveRelevantShopifyChunks`: tenant-scoped nearest-neighbour
select; throws the query error, maps rows to matches with similarity 0,
and maps null data to `[]`. -/
def retrieveRelevantShopifyChunks (nn : ShopifyNn) (queryEmbedding : List Int)
    (storeId : String) (limit : Nat) : Except JsErr (List SMatch) :=
  match nn queryEmbedding storeId limit with
  | ⟨_, some e⟩ => .error e
  | ⟨d, none⟩ =>
    .ok ((d.getD []).map fun r =>
      ⟨r.id, r.chunk_text, 0, r.store_id, r.content_type, r.title, r.metadata⟩)

/-! ## Conversation history model (`generateAutoResponse`, steps 4-5) -/

/-- A row of the `whatsapp_messages` table as selected for history. -/
structure MsgRow where
  content_text : Option String
  event_type : String
  from_number : String
  to_number : String
  received_at : Nat
deriving DecidableEq

/-- JS truthiness of a nullable string: null, undefined and `""` are
falsy. -/
def truthy : Option String → Bool
  | none => false
  | some s => !(s == "")

/-- A role-tagged chat message. -/
structure ChatMsg where
  role : String
  content : String
deriving DecidableEq

/-- Ascending receipt-time order used by `.order("received_at",
{ ascending: true })`. -/
def recvLE (a b : MsgRow) : Prop := a.received_at ≤ b.received_at

instance : DecidableRel recvLE := fun a b => Nat.decLe a.received_at b.received_at

instance : IsTotal MsgRow recvLE := ⟨fun a b => Nat.le_total a.received_at b.received_at⟩

instance : IsTrans MsgRow recvLE := ⟨fun _ _ _ h1 h2 => Nat.le_trans h1 h2⟩

/-- A row qualifies for history when its text is truthy and its direction
flag is a recognised `MoMessage`/`MtMessage` value. -/
def qualifies (m : MsgRow) : Bool :=
  truthy m.content_text && (m.event_type == "MoMessage" || m.event_type == "MtMessage")

/-- The history-window query: rows involving the counterpart address,
ordered by receipt time ascending, limited to 20. -/
def fetchHistoryRows (table : List MsgRow) (fromNumber : String) : List MsgRow :=
  ((table.filter fun m =>
      m.from_number == fromNumber || m.to_number == fromNumber).insertionSort recvLE).take 20

/-- The filter/map of step 4: keep qualifying rows and tag each with its
role (`MoMessage` is the user, anything else the assistant). -/
def buildHistory (rows : List MsgRow) : List ChatMsg :=
  (rows.filter qualifies).map fun m =>
    ⟨if m.event_type == "MoMessage" then "user" else "assistant", m.content_text.getD ""⟩

/-- Model of JS `slice(-n)`: the last `n` elements. -/
def takeLast (n : Nat) (l : List α) : List α := l.drop (l.length - n)

/-! ## Response orchestrator (`generateAutoResponse`) -/

/-- A row of `phone_document_mapping` as selected in step 1.5. -/
structure MappingRow where
  system_prompt : Option String
  intent : Option String
  auth_token : Option String
  origin : Option String
deriving DecidableEq

/-- Result of `sendWhatsAppMessage`. -/
structure SendResult where
  success : Bool
  error : Option String
deriving DecidableEq

/-- The `AutoResponseResult` type of the source; absent optional fields
are `none`. -/
structure AutoResponseResult where
  success : Bool
  response : Option String := none
  error : Option String := none
  noDocuments : Option Bool := none
  sent : Option Bool := none
deriving DecidableEq

/-- The `raw_payload` object of the synthesized outbound row. -/
structure RawPayload where
  messageId : String
  channel : String
  fromAddr : String
  toAddr : String
  contentType : String
  text : String
  event : String
  isAutoResponse : Bool
deriving DecidableEq

/-- The outbound `whatsapp_messages` row inserted in step 6.5. -/
structure OutboundRow where
  message_id : String
  channel : String
  from_number : String
  to_number : String
  received_at : Nat
  content_type : String
  content_text : String
  sender_name : String
  event_type : String
  is_in_24_window : Bool
  is_responded : Bool
  raw_payload : RawPayload
deriving DecidableEq

/-- Build the outbound row exactly as step 6.5 does. -/
def mkOutboundRow (responseMessageId toNumber fromNumber : String) (now : Nat)
    (response : String) : OutboundRow :=
  ⟨responseMessageId, "whatsapp", toNumber, fromNumber, now, "text", response,
    "AI Assistant", "MtMessage", true, false,
    ⟨responseMessageId, "whatsapp", toNumber, fromNumber, "text", response, "MtMessage", true⟩⟩

/-- A persistence write performed by the orchestrator: the update of the
inbound row's `auto_respond_sent`/`response_sent_at`, or the insert of
the synthesized outbound row. -/
inductive WriteOp where
  | updateInbound (message_id : String) (auto_respond_sent : Bool) (response_sent_at : Nat)
  | insertOutbound (row : OutboundRow)
deriving DecidableEq

/-- Environment of the orchestrator: every external collaborator as an
oracle.  `getDataSourceForPhone`, `getShopifyStoreForPhoneNumber` and
`getFilesForPhoneNumber` come from the `phoneMapping` module, which is
not among the sources; per the spec they are a read-only tenant
configuration lookup, so they are modelled as opaque-valued lookups that
may also throw.  `mappingQuery` is the query function handed to
`retrySupabaseQuery`, as the sequence of its per-call results. -/
structure OrchEnv where
  getDataSourceForPhone : String → Except JsErr (Option String)
  mappingQuery : Nat → QRes (Option (List MappingRow))
  embedText : String → Except JsErr (Option (List Int))
  getShopifyStoreForPhoneNumber : String → Except JsErr (Option String)
  getFilesForPhoneNumber : String → Except JsErr (List String)
  rpcMatchDocuments : Rpc
  shopifyNn : ShopifyNn
  historyData : Option (List MsgRow)
  chatCompletion : List ChatMsg → Except JsErr (Option String)
  sendWhatsAppMessage : String → String → String → String → Except JsErr SendResult
  nowMs : Nat

/-- The fixed Shopify-assistant rule block of the system prompt. -/
def baseRulesShopify : String :=
  "You are a helpful Shopify store assistant. Your ONLY job is to answer customer questions based strictly on the provided store data.\n\nSTRICT RULES:\n- ONLY answer using information from the CONTEXT below\n- Focus on products, pricing, availability, and store information\n- If asked about unavailable products, inform customer politely\n- Provide pricing in the store\x27s currency format\n- If information is not in the context, say you don\x27t have that information but can help with other questions\n- Be friendly, helpful, and conversational\n- Detect the customer\x27s language and respond in the same language\n- Keep responses concise and appropriate for WhatsApp chat\n- Format responses with line breaks for readability"

/-- The fixed document-assistant rule block of the system prompt. -/
def baseRulesDocs : String :=
  "Your ONLY job is to answer questions based strictly on the provided document context.\n\nSTRICT RULES:\n- ONLY answer questions using information from the CONTEXT below\n- If the answer is not in the CONTEXT, say \"I don\x27t have that information in the document\"\n- NEVER use your general knowledge or make assumptions beyond the document\n- NEVER offer to do tasks you cannot do (generate files, make calls, etc.)\n- Be concise and friendly - keep responses under 300 words\n- Use clear, simple language appropriate for WhatsApp chat\n- Format responses with line breaks for readability"

/-- Chunk texts of a retrieval result (`matches.map(m => m.chunk)`). -/
def chunksOfOut : RetrievalOut → List String
  | .plain l => l.map (·.chunk)
  | .tagged l => l.map (·.chunk)

/-- Step 3 of the orchestrator: route retrieval by data-source kind.
Returns either an early terminal result (configuration failure) or the
retrieved chunk texts; a thrown retrieval error propagates. -/
def retrieveMatches (env : OrchEnv) (dataSource toNumber : String)
    (queryEmbedding : List Int) : Except JsErr (AutoResponseResult ⊕ List String) :=
  if dataSource == "shopify" then
    match env.getShopifyStoreForPhoneNumber toNumber with
    | .error e => .error e
    | .ok none =>
      .ok (.inl { success := false, noDocuments := some true,
                  error := some "No Shopify store mapped to this business number" })
    | .ok (some shopifyStoreId) =>
      match retrieveRelevantShopifyChunks env.shopifyNn queryEmbedding shopifyStoreId 5 with
      | .error e => .error e
      | .ok ms => .ok (.inr (ms.map (·.chunk)))
  else
    match env.getFilesForPhoneNumber toNumber with
    | .error e => .error e
    | .ok [] =>
      .ok (.inl { success := false, noDocuments := some true,
                  error := some "No documents mapped to this business number" })
    | .ok (f :: fs) =>
      match retrieveRelevantChunksFromFiles env.rpcMatchDocuments queryEmbedding (f :: fs) 5 with
      | .error e => .error e
      | .ok out => .ok (.inr (chunksOfOut out))

/-- The prompt sent to the LLM: system prompt with context, the last 10
history entries, the new user message. -/
def buildMessages (dataSource : String) (m0 : MappingRow) (contextText : String)
    (history : List ChatMsg) (messageText : String) : List ChatMsg :=
  let baseRules := if dataSource == "shopify" then baseRulesShopify else baseRulesDocs
  let systemPrompt :=
    if truthy m0.system_prompt then m0.system_prompt.getD "" ++ "\n\n" ++ baseRules
    else
      "You are a helpful " ++ (if dataSource == "shopify" then "Shopify store" else "WhatsApp")
        ++ " assistant.\n\n" ++ baseRules
  ⟨"system", systemPrompt ++ "\n\nCONTEXT:\n"
      ++ (if contextText == "" then "No relevant context found in the documents." else contextText)⟩
    :: (takeLast 10 history ++ [⟨"user", messageText⟩])

/-- The body of `generateAutoResponse` (everything inside the `try`):
returns the structured result or the thrown value, together with the
trace of persistence writes performed. -/
def genBody (env : OrchEnv) (fromNumber toNumber messageText messageId : String) :
    Except JsErr AutoResponseResult × List WriteOp :=
  match env.getDataSourceForPhone toNumber with
  | .error e => (.error e, [])
  | .ok none =>
    (.ok { success := false, noDocuments := some true,
           error := some "No data source mapped to this business number" }, [])
  | .ok (some dataSource) =>
    match (retrySupabaseQuery env.mappingQuery 3).result with
    | ⟨_, some _⟩ =>
      (.ok { success := false, error := some "Failed to fetch phone mapping details" }, [])
    | ⟨none, none⟩ =>
      (.ok { success := false, error := some "Failed to fetch phone mapping details" }, [])
    | ⟨some [], none⟩ =>
      (.ok { success := false, error := some "Failed to fetch phone mapping details" }, [])
    | ⟨some (m0 :: _), none⟩ =>
      if !(truthy m0.auth_token && truthy m0.origin) then
        (.ok { success := false,
               error := some "No WhatsApp API credentials found. Please set credentials in the Configuration tab." }, [])
      else
        match env.embedText messageText with
        | .error e => (.error e, [])
        | .ok none =>
          (.ok { success := false, error := some "Failed to generate embedding for message" }, [])
        | .ok (some queryEmbedding) =>
          match retrieveMatches env dataSource toNumber queryEmbedding with
          | .error e => (.error e, [])
          | .ok (.inl r) => (.ok r, [])
          | .ok (.inr matchChunks) =>
            let contextText := String.intercalate "\n\n" matchChunks
            let history := buildHistory (env.historyData.getD [])
            let messages := buildMessages dataSource m0 contextText history messageText
            match env.chatCompletion messages with
            | .error e => (.error e, [])
            | .ok resp =>
              if !(truthy resp) then
                (.ok { success := false, error := some "No response generated from LLM" }, [])
              else
                let response := resp.getD ""
                match env.sendWhatsAppMessage fromNumber response (m0.auth_token.getD "")
                    (m0.origin.getD "") with
                | .error e => (.error e, [])
                | .ok sendResult =>
                  if !sendResult.success then
                    (.ok { success := false, response := some response, sent := some false,
                           error := some ("Generated response but failed to send: "
                             ++ sendResult.error.getD "undefined") },
                     [WriteOp.updateInbound messageId false env.nowMs])
                  else
                    let responseMessageId := "auto_" ++ messageId ++ "_" ++ toString env.nowMs
                    (.ok { success := true, response := some response, sent := some true },
                     [WriteOp.insertOutbound
                        (mkOutboundRow responseMessageId toNumber fromNumber env.nowMs response),
                      WriteOp.updateInbound messageId true env.nowMs])

/-- `generateAutoResponse`: the body wrapped in the `try`/`catch` that
converts any thrown value into a structured failure result. -/
def generateAutoResponse (env : OrchEnv) (fromNumber toNumber messageText messageId : String) :
    AutoResponseResult × List WriteOp :=
  match genBody env fromNumber toNumber messageText messageId with
  | (.ok r, tr) => (r, tr)
  | (.error e, tr) => ({ success := false, error := some (jsMessage e) }, tr)

/-! ## Concrete instances used by witnesses and counterexamples -/

/-- A query-result sequence on which every call reports an error. -/
def c3f : Nat → QRes Nat := fun n => ⟨n, some JsErr.nonError⟩

/-- An RPC response oracle that, for source "A", returns only the weaker
of that source's two chunks (as a distance-index may). -/
def c1rpc : Rpc := fun _ t _ =>
  if t = some "A" then ⟨[⟨"lo", "l", 1⟩], none⟩ else ⟨[], none⟩

/-- The full chunk sets behind `c1rpc`. -/
def c1full : String → List DocChunk := fun f =>
  if f = "A" then [⟨"hi", "h", 9⟩, ⟨"lo", "l", 1⟩] else []

/-- A fully-available single-variant product used by the concrete runs. -/
def pvariant : ShopifyVariant := ⟨"12.00".data, "USD".data, true, "SKU1".data⟩

def pprod : ShopifyProduct :=
  ⟨"p1".data, "Blue Mug".data, "blue-mug".data, "<p>A mug</p>".data, [pvariant], ["img".data]⟩

/-- A processor environment whose store accepts every write. -/
def penv : ProcEnv :=
  { storeId := "s1".data, deleteError := none,
    embedText := fun _ => some [1],
    insertError := fun _ _ => none,
    parseNum := fun _ => some 12,
    toFixed2 := fun _ => "12.00".data,
    productPages := [[pprod]], pagePages := [], collectionPages := [] }

/-- The same environment with a failing initial delete. -/
def penvFail : ProcEnv := { penv with deleteError := some "boom".data }

/-- The same environment whose inserts hit the unique constraint. -/
def penvDup : ProcEnv :=
  { penv with insertError := fun _ _ => some ⟨"23505".data, "dup".data⟩ }

/-- The same environment whose inserts fail with a non-duplicate error. -/
def penvErr : ProcEnv :=
  { penv with insertError := fun _ _ => some ⟨"XXXXX".data, "boom".data⟩ }

/-- A chunk row left over from an earlier ingestion of the same store. -/
def oldRow : StoredRow :=
  ⟨"s1".data, CType.product, "old".data, "Old".data, "old text".data, [0],
    ChunkMeta.product "h".data 0 0 0⟩

/-- The row the current source state of `penv` produces. -/
def prodRow : StoredRow :=
  ⟨"s1".data, CType.product, "p1".data, "Blue Mug".data, productToText penv pprod, [1],
    ChunkMeta.product "blue-mug".data 1 1 1⟩

/-- A chunk record submitted directly to `storeChunk`. -/
def cd0 : ShopifyChunkData :=
  ⟨CType.product, "p1".data, "T".data, "hello".data, ChunkMeta.page "h".data⟩

/-- An orchestrator environment on which every step succeeds: a file
data source with one mapped file, one retrieved chunk, a fixed reply and
a successful send, at time 1000. -/
def oenvOk : OrchEnv :=
  { getDataSourceForPhone := fun _ => .ok (some "files"),
    mappingQuery := fun _ => ⟨some [⟨none, none, some "tok", some "org"⟩], none⟩,
    embedText := fun _ => .ok (some [1]),
    getShopifyStoreForPhoneNumber := fun _ => .ok none,
    getFilesForPhoneNumber := fun _ => .ok ["f1"],
    rpcMatchDocuments := fun _ _ _ => ⟨[⟨"c1", "chunk text", 5⟩], none⟩,
    shopifyNn := fun _ _ _ => ⟨none, none⟩,
    historyData := none,
    chatCompletion := fun _ => .ok (some "Hello!"),
    sendWhatsAppMessage := fun _ _ _ _ => .ok ⟨true, none⟩,
    nowMs := 1000 }

/-- The same environment invoked at a later time. -/
def oenvOk2 : OrchEnv := { oenvOk with nowMs := 2000 }

/-- The same environment whose outbound send fails. -/
def oenvSendFail : OrchEnv :=
  { oenvOk with sendWhatsAppMessage := fun _ _ _ _ => .ok ⟨false, some "http 500"⟩ }

/-- The same environment whose first external call throws. -/
def oenvThrow : OrchEnv :=
  { oenvOk with getDataSourceForPhone := fun _ => .error (.jsError "boom") }

/-- Two mapping-query behaviours that agree on the first returned row
but differ in the later rows. -/
def mapf : Nat → QRes (Option (List MappingRow)) := fun _ =>
  ⟨some [⟨none, none, some "tok", some "org"⟩, ⟨some "p2", none, some "tok2", some "org2"⟩], none⟩

def mapg : Nat → QRes (Option (List MappingRow)) := fun _ =>
  ⟨some [⟨none, none, some "tok", some "org"⟩, ⟨some "p3", some "i3", none, none⟩], none⟩

/-- A qualifying inbound history row. -/
def c2row : MsgRow := ⟨some "hi", "MoMessage", "cust", "biz", 5⟩

/-- A one-row message table. -/
def c2table : List MsgRow := [c2row]

/-! ## Theorems -/

theorem retryGo_success {α} (f : Nat → QRes α) (k : Nat) (hsucc : (f k).error = none) :
    ∀ (fuel a : Nat), 1 ≤ a → a ≤ k → k < a + fuel →
    (∀ j, a ≤ j → j < k → (f j).error ≠ none) →
    retryGo f a fuel = ⟨f k, k - a + 1, (List.range' a (k - a)).map (· * 1000)⟩ := by
  intro fuel
  induction fuel with
  | zero =>
    intro a h1 hak hk _
    exact absurd hak (by omega)
  | succ fuel ih =>
    intro a h1 hak hk hfail
    rw [retryGo]
    rcases eq_or_lt_of_le hak with he | hlt
    · subst he
      simp [hsucc]
    · have hfa := hfail a le_rfl hlt
      simp only [hfa, if_neg, if_false]
      rw [ih (a + 1) (by omega) (by omega) (by omega)
        (fun j hj1 hj2 => hfail j (by omega) hj2)]
      have hfz : fuel ≠ 0 := by omega
      simp only [hfz, if_false, hfa]
      rw [show k - a = (k - (a + 1)) + 1 from by omega, List.range'_succ]
      simp [hfa]

theorem retryGo_allfail {α} (f : Nat → QRes α) (m : Nat)
    (hfail : ∀ j, 1 ≤ j → j ≤ m → (f j).error ≠ none) :
    ∀ (fuel a : Nat), 1 ≤ a → a + fuel = m + 1 →
    retryGo f a fuel = ⟨f (m + 1), fuel + 1, (List.range' a (fuel - 1)).map (· * 1000)⟩ := by
  intro fuel
  induction fuel with
  | zero =>
    intro a h1 hfm
    have ha : a = m + 1 := by omega
    subst ha
    simp [retryGo]
  | succ fuel ih =>
    intro a h1 hfm
    have hfa := hfail a h1 (by omega)
    rw [retryGo]
    simp only [hfa, if_neg, if_false]
    rw [ih (a + 1) (by omega) (by omega)]
    rcases Nat.eq_zero_or_pos fuel with h0 | hpos
    · subst h0
      simp [hfa]
    · have hfz : fuel ≠ 0 := by omega
      simp only [hfz, if_false]
      rw [show fuel + 1 - 1 = (fuel - 1) + 1 from by omega, List.range'_succ]
      simp [hfa]

/-- Claim C3: the bounded-retry wrapper returns immediately with the
first successful result; each failed attempt before the last waits an
attempt-proportional delay (attempt × 1000 ms, linearly increasing); and
when every one of the `maxRetries` configured attempts fails it issues
one extra invocation of the query function — `maxRetries + 1` calls in
total — and returns that final call's result, error included, as-is. -/
theorem c3_retry_wrapper {α} (f : Nat → QRes α) (maxRetries : Nat) :
    (∀ k, 1 ≤ k → k ≤ maxRetries → (f k).error = none →
      (∀ j, 1 ≤ j → j < k → (f j).error ≠ none) →
      retrySupabaseQuery f maxRetries =
        ⟨f k, k, (List.range' 1 (k - 1)).map (· * 1000)⟩)
    ∧ ((∀ j, 1 ≤ j → j ≤ maxRetries → (f j).error ≠ none) →
      retrySupabaseQuery f maxRetries =
        ⟨f (maxRetries + 1), maxRetries + 1,
          (List.range' 1 (maxRetries - 1)).map (· * 1000)⟩) := by
  constructor
  · intro k h1 hk hsucc hfail
    have hrun := retryGo_success f k hsucc maxRetries 1 le_rfl h1 (by omega) hfail
    rw [retrySupabaseQuery, hrun, show k - 1 + 1 = k from by omega]
  · intro hfail
    have hrun := retryGo_allfail f maxRetries hfail maxRetries 1 le_rfl (by omega)
    rw [retrySupabaseQuery, hrun]

theorem c3_retry_wrapper_witness :
    (∀ j, 1 ≤ j → j ≤ 3 → (c3f j).error ≠ none) ∧
    retrySupabaseQuery c3f 3 = ⟨⟨4, some JsErr.nonError⟩, 4, [1000, 2000]⟩ := by
  have hfail : ∀ j, 1 ≤ j → j ≤ 3 → (c3f j).error ≠ none := by
    intro j _ _
    simp [c3f]
  refine ⟨hfail, ?_⟩
  have := (c3_retry_wrapper c3f 3).2 hfail
  rw [this]
  rfl

theorem multiLoop_ok (rpc : Rpc) (queryEmbedding : List Int) (limit : Nat) :
    ∀ (fs : List String) (acc : List DocChunkF),
    (∀ f ∈ fs, (rpc queryEmbedding (some f) limit).error = none) →
    multiLoop rpc queryEmbedding limit fs acc
      = .ok (acc ++ unionTagged rpc queryEmbedding limit fs) := by
  intro fs
  induction fs with
  | nil =>
    intro acc _
    simp [multiLoop, unionTagged]
  | cons f fs ih =>
    intro acc hok
    have hf : (rpc queryEmbedding (some f) limit).error = none := hok f (by simp)
    rcases h : rpc queryEmbedding (some f) limit with ⟨d, e⟩
    rw [h] at hf
    simp only at hf
    subst hf
    rw [multiLoop, retrieveRelevantChunks, h]
    dsimp only
    rw [ih _ (fun g hg => hok g (by simp [hg]))]
    simp [unionTagged, h, List.append_assoc]

/-- Claim C1: for a query embedding, two or more sources and a limit K,
`retrieveRelevantChunksFromFiles` queries each source independently for
its own top-K, concatenates the tagged partial results, sorts them
descending by similarity and truncates to K — so it returns exactly the
top-K of the union of the per-source results, sorted descending, of
length at most K; and this is not necessarily the true global top-K of
the sources' full chunk sets. -/
theorem c1_multi_source_merge :
    (∀ (rpc : Rpc) (queryEmbedding : List Int) (fileIds : List String) (k : Nat),
      2 ≤ fileIds.length →
      (∀ f ∈ fileIds, (rpc queryEmbedding (some f) k).error = none) →
      retrieveRelevantChunksFromFiles rpc queryEmbedding fileIds k
          = .ok (.tagged (topK k (unionTagged rpc queryEmbedding k fileIds)))
        ∧ (topK k (unionTagged rpc queryEmbedding k fileIds)).Sorted simGE
        ∧ (topK k (unionTagged rpc queryEmbedding k fileIds)).length ≤ k)
    ∧ (∃ (full : String → List DocChunk) (rpc : Rpc) (queryEmbedding : List Int)
        (fileIds : List String) (k : Nat),
        2 ≤ fileIds.length
        ∧ (∀ f ∈ fileIds,
            (rpc queryEmbedding (some f) k).error = none
            ∧ ((rpc queryEmbedding (some f) k).data).length ≤ k
            ∧ ∀ c ∈ (rpc queryEmbedding (some f) k).data, c ∈ full f)
        ∧ retrieveRelevantChunksFromFiles rpc queryEmbedding fileIds k
            ≠ .ok (.tagged (topK k (fileIds.flatMap fun f => (full f).map (tagWith f))))) := by
  constructor
  · intro rpc queryEmbedding fileIds k h2 hok
    refine ⟨?_, List.Pairwise.sublist (List.take_sublist _ _)
      (List.sorted_insertionSort simGE _), List.length_take_le _ _⟩
    match fileIds, h2 with
    | f1 :: f2 :: rest, _ =>
      rw [retrieveRelevantChunksFromFiles, multiLoop_ok rpc queryEmbedding k _ [] hok]
      · simp [Except.map]
      · simp
      · simp
  · refine ⟨c1full, c1rpc, [], ["A", "B"], 1, by decide, by decide, ?_⟩
    have hL : retrieveRelevantChunksFromFiles c1rpc [] ["A", "B"] 1
        = .ok (.tagged [⟨"lo", "l", 1, "A"⟩]) := rfl
    have hR : topK 1 (["A", "B"].flatMap fun f => (c1full f).map (tagWith f))
        = [⟨"hi", "h", 9, "A"⟩] := rfl
    rw [hL, hR]
    intro hcontra
    simp at hcontra

theorem c1_multi_source_merge_witness :
    2 ≤ (["A", "B"] : List String).length ∧
    retrieveRelevantChunksFromFiles c1rpc [] ["A", "B"] 1
      = .ok (.tagged (topK 1 (unionTagged c1rpc [] 1 ["A", "B"]))) :=
  ⟨by decide,
    (c1_multi_source_merge.1 c1rpc [] ["A", "B"] 1 (by decide) (by decide)).1⟩

/-- Claim C2: for every inbound message, the history included in the LLM
prompt has at most 10 entries; those entries are the role-tagged images
of the most recent qualifying rows (truthy text, recognised
`MoMessage`/`MtMessage` direction) of the fetched window; the window
itself holds at most 20 rows, all involving the counterpart address; and
chronological order by receipt time is preserved (ascending, with every
dropped qualifying row no newer than every kept one). -/
theorem c2_history_window (table : List MsgRow) (fromNumber : String) :
    (fetchHistoryRows table fromNumber).length ≤ 20
    ∧ (∀ m ∈ fetchHistoryRows table fromNumber,
        m.from_number = fromNumber ∨ m.to_number = fromNumber)
    ∧ takeLast 10 (buildHistory (fetchHistoryRows table fromNumber))
        = (takeLast 10 ((fetchHistoryRows table fromNumber).filter qualifies)).map
            (fun m => ⟨if m.event_type == "MoMessage" then "user" else "assistant",
              m.content_text.getD ""⟩)
    ∧ (takeLast 10 ((fetchHistoryRows table fromNumber).filter qualifies)).length ≤ 10
    ∧ (takeLast 10 ((fetchHistoryRows table fromNumber).filter qualifies)).Sorted recvLE
    ∧ (∀ m ∈ takeLast 10 ((fetchHistoryRows table fromNumber).filter qualifies),
        qualifies m = true)
    ∧ (∀ a ∈ ((fetchHistoryRows table fromNumber).filter qualifies).take
          (((fetchHistoryRows table fromNumber).filter qualifies).length - 10),
        ∀ b ∈ takeLast 10 ((fetchHistoryRows table fromNumber).filter qualifies),
        a.received_at ≤ b.received_at) := by
  have hwin : (fetchHistoryRows table fromNumber).Sorted recvLE :=
    List.Pairwise.sublist (List.take_sublist _ _) (List.sorted_insertionSort recvLE _)
  have hqs : ((fetchHistoryRows table fromNumber).filter qualifies).Sorted recvLE :=
    List.Pairwise.sublist (List.filter_sublist _) hwin
  refine ⟨List.length_take_le _ _, ?_, ?_, ?_, ?_, ?_, ?_⟩
  · intro m hm
    have hm' := List.take_subset _ _ hm
    have hm'' := (List.perm_insertionSort recvLE _).subset hm'
    have := (List.mem_filter.mp hm'').2
    simpa [Bool.or_eq_true, beq_iff_eq] using this
  · simp only [buildHistory, takeLast, List.length_map]
    rw [List.map_drop]
  · simp only [takeLast, List.length_drop]
    omega
  · exact List.Pairwise.sublist (List.drop_sublist _ _) hqs
  · intro m hm
    exact List.of_mem_filter (List.drop_subset _ _ hm)
  · intro a ha b hb
    have hsplit := hqs
    rw [← List.take_append_drop
      (((fetchHistoryRows table fromNumber).filter qualifies).length - 10)
      ((fetchHistoryRows table fromNumber).filter qualifies)] at hsplit
    exact (List.pairwise_append.mp hsplit).2.2 a ha b hb

theorem chunkTextGo_length_le :
    ∀ (fuel : Nat) (s : Str) (size : Nat), ∀ c ∈ chunkTextGo fuel s size,
    c.length ≤ size := by
  intro fuel
  induction fuel with
  | zero =>
    intro s size c hc
    rcases s with _ | ⟨a, rest⟩ <;> rcases size with _ | n <;>
      simp [chunkTextGo] at hc
  | succ fuel ih =>
    intro s size c hc
    rcases s with _ | ⟨a, rest⟩ <;> rcases size with _ | n <;>
      simp only [chunkTextGo, List.not_mem_nil, List.mem_cons] at hc
    rcases hc with hc | hc
    · subst hc
      exact List.length_take_le _ _
    · exact ih _ _ c hc

theorem chunkText_length_le (s : Str) (size : Nat) :
    ∀ c ∈ chunkText s size, c.length ≤ size :=
  chunkTextGo_length_le s.length s size

theorem mem_chunkDatas_bounds {cds : List ShopifyChunkData} {mk : Str → ShopifyChunkData}
    (t : Str)
    (hcds : cds = ((chunkText t 1500).filter (fun c => decide (0 < (trimStr c).length))).map mk)
    (htext : ∀ ch, (mk ch).text = ch) :
    ∀ cd ∈ cds, cd.text.length ≤ 1500 ∧ trimStr cd.text ≠ [] := by
  subst hcds
  intro cd hcd
  rcases List.mem_map.mp hcd with ⟨ch, hch, hmk⟩
  have hmem := List.mem_of_mem_filter hch
  have hpos := List.of_mem_filter hch
  simp only [decide_eq_true_eq] at hpos
  subst hmk
  rw [htext]
  refine ⟨chunkText_length_le _ _ _ hmem, ?_⟩
  intro hnil
  rw [hnil] at hpos
  simp at hpos

theorem storeChunk_new (env : ProcEnv) (db : List StoredRow) (cd : ShopifyChunkData) :
    ∀ c ∈ (storeChunk env db cd).1,
      c ∈ db ∨ ∃ emb, env.embedText cd.text = some emb ∧ c = mkStoredRow env cd emb := by
  intro c hc
  rw [storeChunk] at hc
  rcases h : env.embedText cd.text with _ | emb
  · rw [h] at hc
    exact Or.inl hc
  · rw [h] at hc
    dsimp only at hc
    rcases hi : env.insertError (mkStoredRow env cd emb) db with _ | e
    · rw [hi] at hc
      dsimp only at hc
      rcases List.mem_append.mp hc with hc | hc
      · exact Or.inl hc
      · exact Or.inr ⟨emb, rfl, (List.mem_singleton.mp hc)⟩
    · rw [hi] at hc
      dsimp only at hc
      split at hc
      · exact Or.inl hc
      · exact Or.inl hc

theorem foldStop_inv {α} (step : List StoredRow → α → ProcResult) (P : StoredRow → Prop)
    (Q : α → Prop)
    (hstep : ∀ db x, Q x → (∀ c ∈ db, P c) → ∀ c ∈ (step db x).1, P c) :
    ∀ (l : List α) (db : List StoredRow), (∀ x ∈ l, Q x) → (∀ c ∈ db, P c) →
    ∀ c ∈ (foldStop step db l).1, P c := by
  intro l
  induction l with
  | nil =>
    intro db _ hdb c hc
    exact hdb c hc
  | cons x xs ih =>
    intro db hQ hdb c hc
    rw [foldStop] at hc
    rcases h : step db x with ⟨db', e⟩
    have hdb' : ∀ c ∈ db', P c := by
      have := hstep db x (hQ x (by simp)) hdb
      rw [h] at this
      exact this
    rcases e with _ | msg
    · rw [h] at hc
      dsimp only at hc
      exact ih db' (fun y hy => hQ y (by simp [hy])) hdb' c hc
    · rw [h] at hc
      exact hdb' c hc

theorem mem_producedRows_product (env : ProcEnv) {p : ShopifyProduct}
    {cd : ShopifyChunkData} {emb : List Int}
    (hp : p ∈ env.productPages.flatten) (hcd : cd ∈ productChunkDatas env p)
    (hemb : env.embedText cd.text = some emb) :
    mkStoredRow env cd emb ∈ producedRows env := by
  rw [producedRows]
  refine List.mem_append_left _ (List.mem_append_left _ ?_)
  refine List.mem_flatMap.mpr ⟨p, hp, ?_⟩
  refine List.mem_filterMap.mpr ⟨cd, hcd, ?_⟩
  rw [hemb]
  rfl

theorem mem_producedRows_page (env : ProcEnv) {pg : ShopifyPage}
    {cd : ShopifyChunkData} {emb : List Int}
    (hp : pg ∈ env.pagePages.flatten) (hcd : cd ∈ pageChunkDatas pg)
    (hemb : env.embedText cd.text = some emb) :
    mkStoredRow env cd emb ∈ producedRows env := by
  rw [producedRows]
  refine List.mem_append_left _ (List.mem_append_right _ ?_)
  refine List.mem_flatMap.mpr ⟨pg, hp, ?_⟩
  refine List.mem_filterMap.mpr ⟨cd, hcd, ?_⟩
  rw [hemb]
  rfl

theorem mem_producedRows_collection (env : ProcEnv) {col : ShopifyCollection}
    {cd : ShopifyChunkData} {emb : List Int}
    (hp : col ∈ env.collectionPages.flatten) (hcd : cd ∈ collectionChunkDatas col)
    (hemb : env.embedText cd.text = some emb) :
    mkStoredRow env cd emb ∈ producedRows env := by
  rw [producedRows]
  refine List.mem_append_right _ ?_
  refine List.mem_flatMap.mpr ⟨col, hp, ?_⟩
  refine List.mem_filterMap.mpr ⟨cd, hcd, ?_⟩
  rw [hemb]
  rfl

theorem storeChunk_pres (env : ProcEnv) (P : StoredRow → Prop)
    (db : List StoredRow) (cd : ShopifyChunkData)
    (hP : ∀ emb, env.embedText cd.text = some emb → P (mkStoredRow env cd emb))
    (hdb : ∀ c ∈ db, P c) : ∀ c ∈ (storeChunk env db cd).1, P c := by
  intro c hc
  rcases storeChunk_new env db cd c hc with h | ⟨emb, hemb, rfl⟩
  · exact hdb c h
  · exact hP emb hemb

theorem storeChunks_pres (env : ProcEnv) (P : StoredRow → Prop)
    (datas : List ShopifyChunkData)
    (hP : ∀ cd ∈ datas, ∀ emb, env.embedText cd.text = some emb → P (mkStoredRow env cd emb)) :
    ∀ db, (∀ c ∈ db, P c) → ∀ c ∈ (foldStop (storeChunk env) db datas).1, P c :=
  fun db hdb =>
    foldStop_inv (storeChunk env) P (fun cd => cd ∈ datas)
      (fun db cd hcd hdb => storeChunk_pres env P db cd (hP cd hcd) hdb)
      datas db (fun _ hx => hx) hdb

theorem processProducts_pres (env : ProcEnv) (P : StoredRow → Prop)
    (hP : ∀ p ∈ env.productPages.flatten, ∀ cd ∈ productChunkDatas env p,
      ∀ emb, env.embedText cd.text = some emb → P (mkStoredRow env cd emb)) :
    ∀ db, (∀ c ∈ db, P c) → ∀ c ∈ (processProducts env db).1, P c := by
  intro db hdb
  refine foldStop_inv _ P (fun page => page ∈ env.productPages) ?_
    env.productPages db (fun _ hx => hx) hdb
  intro db page hpage hdb
  refine foldStop_inv _ P (fun p => p ∈ page) ?_ page db (fun _ hx => hx) hdb
  intro db p hp hdb
  rw [processProduct]
  exact storeChunks_pres env P (productChunkDatas env p)
    (hP p (List.mem_flatten.mpr ⟨page, hpage, hp⟩)) db hdb

theorem processPages_pres (env : ProcEnv) (P : StoredRow → Prop)
    (hP : ∀ pg ∈ env.pagePages.flatten, ∀ cd ∈ pageChunkDatas pg,
      ∀ emb, env.embedText cd.text = some emb → P (mkStoredRow env cd emb)) :
    ∀ db, (∀ c ∈ db, P c) → ∀ c ∈ (processPages env db).1, P c := by
  intro db hdb
  refine foldStop_inv _ P (fun page => page ∈ env.pagePages) ?_
    env.pagePages db (fun _ hx => hx) hdb
  intro db page hpage hdb
  refine foldStop_inv _ P (fun pg => pg ∈ page) ?_ page db (fun _ hx => hx) hdb
  intro db pg hp hdb
  rw [processPage]
  exact storeChunks_pres env P (pageChunkDatas pg)
    (hP pg (List.mem_flatten.mpr ⟨page, hpage, hp⟩)) db hdb

theorem processCollections_pres (env : ProcEnv) (P : StoredRow → Prop)
    (hP : ∀ col ∈ env.collectionPages.flatten, ∀ cd ∈ collectionChunkDatas col,
      ∀ emb, env.embedText cd.text = some emb → P (mkStoredRow env cd emb)) :
    ∀ db, (∀ c ∈ db, P c) → ∀ c ∈ (processCollections env db).1, P c := by
  intro db hdb
  refine foldStop_inv _ P (fun page => page ∈ env.collectionPages) ?_
    env.collectionPages db (fun _ hx => hx) hdb
  intro db page hpage hdb
  refine foldStop_inv _ P (fun col => col ∈ page) ?_ page db (fun _ hx => hx) hdb
  intro db col hp hdb
  rw [processCollection]
  exact storeChunks_pres env P (collectionChunkDatas col)
    (hP col (List.mem_flatten.mpr ⟨page, hpage, hp⟩)) db hdb

/-- Claim C4: ingestion deletes all of the owner's existing chunks before
inserting any new chunk — a delete failure aborts the run with a
descriptive error and leaves the store untouched — and after a completed
run every chunk stored for the owner is one produced from the current
source state, so chunks of earlier ingestions are absent unless
re-produced. -/
theorem c4_full_replace (env : ProcEnv) (db : List StoredRow) :
    (∀ m, env.deleteError = some m →
      processAllData env db = (db, some ("Failed to clear existing chunks: ".data ++ m)))
    ∧ (∀ db', processAllData env db = (db', none) →
      ∀ c ∈ db', c.store_id = env.storeId → c ∈ producedRows env) := by
  constructor
  · intro m hm
    rw [processAllData, clearExistingChunks, hm]
  · intro db' hrun c hc hsid
    rw [processAllData] at hrun
    rcases hdel : env.deleteError with _ | m
    · rw [clearExistingChunks, hdel] at hrun
      dsimp only at hrun
      have h1 : ∀ c ∈ db.filter (fun r => !(r.store_id = env.storeId : Bool)),
          c.store_id = env.storeId → c ∈ producedRows env := by
        intro c hcm hsid'
        have hf := List.of_mem_filter hcm
        simp [hsid'] at hf
      rcases h2run : processProducts env (db.filter fun r => !(r.store_id = env.storeId : Bool))
        with ⟨db2, e2⟩
      rw [h2run] at hrun
      have h2 : ∀ c ∈ db2, c.store_id = env.storeId → c ∈ producedRows env := by
        have hpres := processProducts_pres env
          (fun c => c.store_id = env.storeId → c ∈ producedRows env)
          (fun p hp cd hcd emb hemb _ => mem_producedRows_product env hp hcd hemb)
          _ h1
        rw [h2run] at hpres
        exact hpres
      rcases e2 with _ | e2
      · dsimp only at hrun
        rcases h3run : processPages env db2 with ⟨db3, e3⟩
        rw [h3run] at hrun
        have h3 : ∀ c ∈ db3, c.store_id = env.storeId → c ∈ producedRows env := by
          have hpres := processPages_pres env
            (fun c => c.store_id = env.storeId → c ∈ producedRows env)
            (fun pg hp cd hcd emb hemb _ => mem_producedRows_page env hp hcd hemb)
            _ h2
          rw [h3run] at hpres
          exact hpres
        rcases e3 with _ | e3
        · dsimp only at hrun
          have h4 : ∀ c ∈ (processCollections env db3).1,
              c.store_id = env.storeId → c ∈ producedRows env :=
            processCollections_pres env
              (fun c => c.store_id = env.storeId → c ∈ producedRows env)
              (fun col hp cd hcd emb hemb _ => mem_producedRows_collection env hp hcd hemb)
              _ h3
          have hfst : db' = (processCollections env db3).1 := by
            rw [hrun]
          rw [hfst] at hc
          exact h4 c hc hsid
        · simp at hrun
      · simp at hrun
    · rw [clearExistingChunks, hdel] at hrun
      simp at hrun

set_option maxRecDepth 80000 in
theorem c4_full_replace_witness :
    processAllData penvFail [oldRow]
      = ([oldRow], some ("Failed to clear existing chunks: ".data ++ "boom".data))
    ∧ prodRow ∈ producedRows penv :=
  ⟨(c4_full_replace penvFail [oldRow]).1 "boom".data rfl,
   (c4_full_replace penv [oldRow]).2 [prodRow] (by decide) prodRow (by decide) (by decide)⟩

/-- Claim C5: during chunk storage a duplicate-key insert error (code
23505) is swallowed so that processing continues with the remaining
chunks, while any other insert error aborts the enclosing processing
with the descriptive `Failed to store chunk` failure. -/
theorem c5_duplicate_handling (env : ProcEnv) (db : List StoredRow)
    (cd : ShopifyChunkData) (emb : List Int) (e : InsertError)
    (hemb : env.embedText cd.text = some emb)
    (hins : env.insertError (mkStoredRow env cd emb) db = some e) :
    (e.code = "23505".data → storeChunk env db cd = (db, none))
    ∧ (e.code ≠ "23505".data →
        storeChunk env db cd = (db, some ("Failed to store chunk: ".data ++ e.message)))
    ∧ (∀ rest, e.code = "23505".data →
        foldStop (storeChunk env) db (cd :: rest) = foldStop (storeChunk env) db rest)
    ∧ (∀ rest, e.code ≠ "23505".data →
        foldStop (storeChunk env) db (cd :: rest)
          = (db, some ("Failed to store chunk: ".data ++ e.message))) := by
  have hdup : e.code = "23505".data → storeChunk env db cd = (db, none) := by
    intro hcode
    rw [storeChunk, hemb]
    dsimp only
    rw [hins]
    dsimp only
    rw [if_pos hcode]
  have herr : e.code ≠ "23505".data →
      storeChunk env db cd = (db, some ("Failed to store chunk: ".data ++ e.message)) := by
    intro hcode
    rw [storeChunk, hemb]
    dsimp only
    rw [hins]
    dsimp only
    rw [if_neg hcode]
  refine ⟨hdup, herr, ?_, ?_⟩
  · intro rest hcode
    rw [foldStop, hdup hcode]
  · intro rest hcode
    rw [foldStop, herr hcode]

theorem c5_duplicate_handling_witness :
    storeChunk penvDup [] cd0 = ([], none)
    ∧ storeChunk penvErr [] cd0
        = ([], some ("Failed to store chunk: ".data ++ "boom".data)) :=
  ⟨(c5_duplicate_handling penvDup [] cd0 [1] ⟨"23505".data, "dup".data⟩ rfl rfl).1 rfl,
   (c5_duplicate_handling penvErr [] cd0 [1] ⟨"XXXXX".data, "boom".data⟩ rfl rfl).2.1
     (by decide)⟩

/-- Claim C6: every chunk row stored while processing a product, page or
collection — beyond the rows already present — has text of length at
most the 1500-character bound and is never empty or whitespace-only,
whatever the record's formatted text is. -/
theorem c6_chunk_bounds (env : ProcEnv) (db : List StoredRow) :
    (∀ p, ∀ c ∈ (processProduct env db p).1,
      c ∈ db ∨ (c.chunk_text.length ≤ 1500 ∧ trimStr c.chunk_text ≠ []))
    ∧ (∀ pg, ∀ c ∈ (processPage env db pg).1,
      c ∈ db ∨ (c.chunk_text.length ≤ 1500 ∧ trimStr c.chunk_text ≠ []))
    ∧ (∀ col, ∀ c ∈ (processCollection env db col).1,
      c ∈ db ∨ (c.chunk_text.length ≤ 1500 ∧ trimStr c.chunk_text ≠ [])) := by
  refine ⟨fun p => ?_, fun pg => ?_, fun col => ?_⟩
  · rw [processProduct]
    exact storeChunks_pres env _ (productChunkDatas env p)
      (fun cd hcd emb _ =>
        Or.inr (mem_chunkDatas_bounds (productToText env p) rfl (fun _ => rfl) cd hcd))
      db (fun c hc => Or.inl hc)
  · rw [processPage]
    exact storeChunks_pres env _ (pageChunkDatas pg)
      (fun cd hcd emb _ =>
        Or.inr (mem_chunkDatas_bounds (pageToText pg) rfl (fun _ => rfl) cd hcd))
      db (fun c hc => Or.inl hc)
  · rw [processCollection]
    exact storeChunks_pres env _ (collectionChunkDatas col)
      (fun cd hcd emb _ =>
        Or.inr (mem_chunkDatas_bounds (collectionToText col) rfl (fun _ => rfl) cd hcd))
      db (fun c hc => Or.inl hc)

set_option maxRecDepth 80000 in
theorem c6_chunk_bounds_witness :
    prodRow ∈ (processProduct penv [] pprod).1
    ∧ (prodRow ∈ ([] : List StoredRow)
        ∨ (prodRow.chunk_text.length ≤ 1500 ∧ trimStr prodRow.chunk_text ≠ [])) :=
  ⟨by decide, (c6_chunk_bounds penv []).1 pprod prodRow (by decide)⟩

theorem retrieveMatches_inl (env : OrchEnv) (ds toNumber : String) (emb : List Int)
    (r : AutoResponseResult) (h : retrieveMatches env ds toNumber emb = .ok (.inl r)) :
    r.success = false ∧ r.error.isSome = true := by
  rw [retrieveMatches] at h
  split at h <;> (repeat' split at h) <;> simp_all
  all_goals rw [← h]
  all_goals exact ⟨rfl, rfl⟩

theorem genBody_cases (env : OrchEnv) (fromNumber toNumber messageText messageId : String) :
    (∃ e, genBody env fromNumber toNumber messageText messageId = (.error e, []))
    ∨ (∃ r, genBody env fromNumber toNumber messageText messageId = (.ok r, [])
        ∧ r.success = false ∧ r.error.isSome = true)
    ∨ (∃ r, genBody env fromNumber toNumber messageText messageId
          = (.ok r, [WriteOp.updateInbound messageId false env.nowMs])
        ∧ r.success = false ∧ r.error.isSome = true)
    ∨ (∃ resp, genBody env fromNumber toNumber messageText messageId
        = (.ok { success := true, response := some resp, sent := some true },
           [WriteOp.insertOutbound
              (mkOutboundRow ("auto_" ++ messageId ++ "_" ++ toString env.nowMs)
                toNumber fromNumber env.nowMs resp),
            WriteOp.updateInbound messageId true env.nowMs])) := by
  rw [genBody]
  repeat' first
  | exact Or.inl ⟨_, rfl⟩
  | exact Or.inr (Or.inl ⟨_, rfl, rfl, rfl⟩)
  | exact Or.inr (Or.inr (Or.inl ⟨_, rfl, rfl, rfl⟩))
  | exact Or.inr (Or.inr (Or.inr ⟨_, rfl⟩))
  | split
  all_goals try
    rename_i r heq
    exact Or.inr (Or.inl ⟨r, rfl,
      (retrieveMatches_inl _ _ _ _ r heq).1, (retrieveMatches_inl _ _ _ _ r heq).2⟩)
  all_goals dsimp only
  repeat' first
  | exact Or.inl ⟨_, rfl⟩
  | exact Or.inr (Or.inl ⟨_, rfl, rfl, rfl⟩)
  | exact Or.inr (Or.inr (Or.inl ⟨_, rfl, rfl, rfl⟩))
  | exact Or.inr (Or.inr (Or.inr ⟨_, rfl⟩))
  | split

/-- Claim C8: `generateAutoResponse` never propagates an exception —
every failure, including any value thrown by an external call, yields a
structured result: whenever the reported result is unsuccessful an error
string is present, and a thrown body is converted by the catch handler
into a failure result carrying the thrown value's message and the writes
performed so far. -/
theorem c8_no_escape (env : OrchEnv) (fromNumber toNumber messageText messageId : String) :
    ((generateAutoResponse env fromNumber toNumber messageText messageId).1.success = false →
      (generateAutoResponse env fromNumber toNumber messageText messageId).1.error.isSome = true)
    ∧ (∀ e tr, genBody env fromNumber toNumber messageText messageId = (.error e, tr) →
      generateAutoResponse env fromNumber toNumber messageText messageId
        = ({ success := false, error := some (jsMessage e) }, tr)) := by
  constructor
  · intro hfalse
    rcases genBody_cases env fromNumber toNumber messageText messageId with
      ⟨e, he⟩ | ⟨r, he, hs, herr⟩ | ⟨r, he, hs, herr⟩ | ⟨resp, he⟩
    · rw [generateAutoResponse, he]
      rfl
    · rw [generateAutoResponse, he]
      exact herr
    · rw [generateAutoResponse, he]
      exact herr
    · rw [generateAutoResponse, he] at hfalse
      simp at hfalse
  · intro e tr he
    rw [generateAutoResponse, he]

theorem c8_no_escape_witness :
    ((generateAutoResponse oenvThrow "cust" "biz" "hi" "m1").1.error.isSome = true)
    ∧ generateAutoResponse oenvThrow "cust" "biz" "hi" "m1"
        = ({ success := false, error := some "boom" }, []) :=
  ⟨(c8_no_escape oenvThrow "cust" "biz" "hi" "m1").1 rfl,
   (c8_no_escape oenvThrow "cust" "biz" "hi" "m1").2 (.jsError "boom") [] rfl⟩

/-- Claim C9 fails on the code: the synthesized outbound message id
appends the invocation time (`Date.now()`) to the inbound id, so a
redelivered inbound message processed at a different time inserts a
second outbound conversation turn with a different id — persistence is
not idempotent across re-invocation. -/
theorem c9_counterexample :
    generateAutoResponse oenvOk "cust" "biz" "hi" "m1"
      = ({ success := true, response := some "Hello!", sent := some true },
         [WriteOp.insertOutbound (mkOutboundRow "auto_m1_1000" "biz" "cust" 1000 "Hello!"),
          WriteOp.updateInbound "m1" true 1000])
    ∧ generateAutoResponse oenvOk2 "cust" "biz" "hi" "m1"
      = ({ success := true, response := some "Hello!", sent := some true },
         [WriteOp.insertOutbound (mkOutboundRow "auto_m1_2000" "biz" "cust" 2000 "Hello!"),
          WriteOp.updateInbound "m1" true 2000])
    ∧ (mkOutboundRow "auto_m1_1000" "biz" "cust" 1000 "Hello!").message_id
        ≠ (mkOutboundRow "auto_m1_2000" "biz" "cust" 2000 "Hello!").message_id := by
  refine ⟨by decide, by decide, by decide⟩

/-- Claim C9 (amended): the synthesized outbound message id is derived
deterministically from the inbound message id together with the
invocation time — every outbound turn the orchestrator inserts carries
`auto_<inbound id>_<now>` — so re-invocation for the same inbound id
yields the same outbound id only when the recorded times coincide, and a
redelivery processed at a different time creates a distinct outbound
turn. -/
theorem c9_outbound_id (env : OrchEnv) (fromNumber toNumber messageText messageId : String)
    (r : OutboundRow)
    (hmem : WriteOp.insertOutbound r
      ∈ (generateAutoResponse env fromNumber toNumber messageText messageId).2) :
    r.message_id = "auto_" ++ messageId ++ "_" ++ toString env.nowMs := by
  rcases genBody_cases env fromNumber toNumber messageText messageId with
    ⟨e, he⟩ | ⟨r', he, _, _⟩ | ⟨r', he, _, _⟩ | ⟨resp, he⟩
  · rw [generateAutoResponse, he] at hmem
    simp at hmem
  · rw [generateAutoResponse, he] at hmem
    simp at hmem
  · rw [generateAutoResponse, he] at hmem
    simp at hmem
  · rw [generateAutoResponse, he] at hmem
    simp at hmem
    rw [hmem]
    rfl

theorem c9_outbound_id_witness :
    (WriteOp.insertOutbound (mkOutboundRow "auto_m1_1000" "biz" "cust" 1000 "Hello!")
      ∈ (generateAutoResponse oenvOk "cust" "biz" "hi" "m1").2)
    ∧ (mkOutboundRow "auto_m1_1000" "biz" "cust" 1000 "Hello!").message_id
        = "auto_" ++ "m1" ++ "_" ++ toString oenvOk.nowMs :=
  ⟨by decide,
   c9_outbound_id oenvOk "cust" "biz" "hi" "m1"
     (mkOutboundRow "auto_m1_1000" "biz" "cust" 1000 "Hello!") (by decide)⟩

/-- Claim C7: when a reply has been generated but the messaging send
call reports failure, the orchestrator returns success=false and
sent=false while preserving the generated text in the result together
with the `Generated response but failed to send` error, and its only
persistence write marks the inbound row attempted-but-unsent
(`auto_respond_sent = false` with a response timestamp) — no outbound
turn is inserted and no responded mark is set. -/
theorem c7_send_failure (env : OrchEnv) (fromNumber toNumber messageText messageId : String)
    (ds : String) (m0 : MappingRow) (rest : List MappingRow) (emb : List Int)
    (chunks : List String) (resp : String) (se : Option String)
    (h1 : env.getDataSourceForPhone toNumber = .ok (some ds))
    (h2 : (retrySupabaseQuery env.mappingQuery 3).result = ⟨some (m0 :: rest), none⟩)
    (h3 : truthy m0.auth_token = true) (h4 : truthy m0.origin = true)
    (h5 : env.embedText messageText = .ok (some emb))
    (h6 : retrieveMatches env ds toNumber emb = .ok (.inr chunks))
    (h7 : ∀ ms, env.chatCompletion ms = .ok (some resp))
    (h8 : resp ≠ "")
    (h9 : ∀ a b c d, env.sendWhatsAppMessage a b c d = .ok ⟨false, se⟩) :
    generateAutoResponse env fromNumber toNumber messageText messageId
      = ({ success := false, response := some resp, sent := some false,
           error := some ("Generated response but failed to send: " ++ se.getD "undefined") },
         [WriteOp.updateInbound messageId false env.nowMs]) := by
  rw [generateAutoResponse, genBody, h1]
  try dsimp only
  rw [h2]
  try dsimp only
  rw [show (!(truthy m0.auth_token && truthy m0.origin)) = false from by simp [h3, h4]]
  try dsimp only
  rw [h5]
  try dsimp only
  rw [h6]
  try dsimp only
  rw [h7]
  try dsimp only
  rw [show truthy (some resp) = true from by simp [truthy, h8]]
  try dsimp only
  rw [h9]
  try dsimp only
  rfl

theorem c7_send_failure_witness :
    (∀ a b c d, oenvSendFail.sendWhatsAppMessage a b c d = .ok ⟨false, some "http 500"⟩)
    ∧ generateAutoResponse oenvSendFail "cust" "biz" "hi" "m1"
        = ({ success := false, response := some "Hello!", sent := some false,
             error := some ("Generated response but failed to send: "
               ++ (some "http 500").getD "undefined") },
           [WriteOp.updateInbound "m1" false 1000]) :=
  ⟨fun _ _ _ _ => rfl,
   c7_send_failure oenvSendFail "cust" "biz" "hi" "m1" "files"
     ⟨none, none, some "tok", some "org"⟩ [] [1] ["chunk text"] "Hello!" (some "http 500")
     rfl rfl rfl rfl rfl rfl (fun _ => rfl) (by decide) (fun _ _ _ _ => rfl)⟩

theorem retrieveMatches_mappingQuery (env : OrchEnv)
    (q : Nat → QRes (Option (List MappingRow))) (ds toNumber : String) (emb : List Int) :
    retrieveMatches { env with mappingQuery := q } ds toNumber emb
      = retrieveMatches env ds toNumber emb := rfl

/-- Claim C10: when the tenant-mapping lookup returns more than one row,
only the first row's system prompt, auth token and origin influence the
orchestrator; runs whose mapping queries agree on the first returned row
but differ arbitrarily in the later rows produce identical results and
identical persistence writes. -/
theorem c10_first_mapping_row (env : OrchEnv)
    (f g : Nat → QRes (Option (List MappingRow)))
    (fromNumber toNumber messageText messageId : String)
    (m0 : MappingRow) (rest rest' : List MappingRow)
    (hf : (retrySupabaseQuery f 3).result = ⟨some (m0 :: rest), none⟩)
    (hg : (retrySupabaseQuery g 3).result = ⟨some (m0 :: rest'), none⟩) :
    generateAutoResponse { env with mappingQuery := f }
        fromNumber toNumber messageText messageId
      = generateAutoResponse { env with mappingQuery := g }
        fromNumber toNumber messageText messageId := by
  rw [generateAutoResponse, generateAutoResponse, genBody, genBody]
  dsimp only
  rw [hf, hg]
  simp only [retrieveMatches_mappingQuery]

theorem c10_first_mapping_row_witness :
    (retrySupabaseQuery mapf 3).result
      = ⟨some (⟨none, none, some "tok", some "org"⟩
          :: [⟨some "p2", none, some "tok2", some "org2"⟩]), none⟩
    ∧ (retrySupabaseQuery mapg 3).result
      = ⟨some (⟨none, none, some "tok", some "org"⟩
          :: [⟨some "p3", some "i3", none, none⟩]), none⟩
    ∧ generateAutoResponse { oenvOk with mappingQuery := mapf } "cust" "biz" "hi" "m1"
      = generateAutoResponse { oenvOk with mappingQuery := mapg } "cust" "biz" "hi" "m1" :=
  ⟨rfl, rfl,
   c10_first_mapping_row oenvOk mapf mapg "cust" "biz" "hi" "m1"
     ⟨none, none, some "tok", some "org"⟩
     [⟨some "p2", none, some "tok2", some "org2"⟩]
     [⟨some "p3", some "i3", none, none⟩] rfl rfl⟩

theorem c2_history_window_witness :
    (fetchHistoryRows c2table "cust").length ≤ 20
    ∧ qualifies c2row = true :=
  ⟨(c2_history_window c2table "cust").1,
   (c2_history_window c2table "cust").2.2.2.2.2.1 c2row (by decide)⟩
